import Mathlib

/-
Shallow embedding of the scoring and allocation engine of
`src/dashboard.py` (the "100M$ daily market dashboard").

Numeric values are modelled as rationals (the Python code performs only
additions, multiplications by decimal constants, divisions and order
comparisons, all of which are the intended real-number operations).
Optional readings are `Option ℚ`; Python truthiness tests (`if not x`)
on optional numbers are modelled by `pyFalsy`, which is true for `None`
and for the number `0`.
-/

namespace Dashboard

/-- Python truthiness guard for an optional number: `not x` is true when
`x` is `None` or `0` (source: `if not btc_price or not btc_ath`,
`if not oi_usd or not total_mkt_cap`). -/
def pyFalsy (o : Option ℚ) : Bool :=
  match o with
  | none => true
  | some x => decide (x = 0)

/-- Python `min(a, b)` on numbers. -/
def pyMin (a b : ℚ) : ℚ := if a ≤ b then a else b

/-- Python `max(a, b)` on numbers. -/
def pyMax (a b : ℚ) : ℚ := if b ≤ a then a else b

/-- Clamp to `[-3, 3]`, source expression `max(-3, min(3, score))`. -/
def clamp (s : ℚ) : ℚ := pyMax (-3) (pyMin 3 s)

/-- `score_cycle` from dashboard.py lines 251-281.  The call
`datetime.now(timezone.utc)` only enters through
`days_since_halving = (now - LAST_HALVING_DATE).days`, which is taken
here as an explicit integer argument. -/
def score_cycle (days_since_halving : ℤ) (btc_price btc_ath : Option ℚ) :
    ℚ × String :=
  if pyFalsy btc_price || pyFalsy btc_ath then (0, "Unknown")
  else
    let pct_from_ath := btc_price.getD 0 / btc_ath.getD 0 - 1
    let bl : ℚ × String :=
      if pct_from_ath ≤ -(1/2) then (3, "Deep Value / Early Cycle")
      else if -(1/2) < pct_from_ath ∧ pct_from_ath ≤ -(1/5) then
        (2, "Early / Mid Bull")
      else if -(1/5) < pct_from_ath ∧ pct_from_ath ≤ 1/10 then
        (0, "Mid / Late Bull")
      else (-2, "Euphoria / Late Cycle")
    let base :=
      if days_since_halving < 0 then bl.1 + 1/2
      else if 0 ≤ days_since_halving ∧ days_since_halving ≤ 270 then
        bl.1 + 1/2
      else bl.1
    (base, bl.2)

/-- `score_sentiment` from dashboard.py lines 284-297, on an already
numeric Fear & Greed value (`v = int(fng_value)`). -/
def score_sentiment (fng_value : Option ℤ) : ℚ × String :=
  match fng_value with
  | none => (0, "Unknown")
  | some v =>
    if v ≤ 25 then (2, "Extreme Fear (Contrarian Bullish)")
    else if 25 < v ∧ v ≤ 50 then (1, "Fear / Neutral")
    else if 50 < v ∧ v ≤ 75 then (-1, "Greed")
    else (-2, "Extreme Greed (Risky)")

/-- `score_rotation` from dashboard.py lines 300-329. -/
def score_rotation (btc_dominance eth_btc_ratio_change_30d : Option ℚ) :
    ℚ × String :=
  match btc_dominance with
  | none => (0, "Unknown")
  | some dom =>
    let bl : ℚ × String :=
      if dom ≥ 55 then (-1, "BTC Dominant – Altcoins face headwind")
      else if 45 ≤ dom ∧ dom < 55 then (0, "No clear Altseason – mixed rotation")
      else (1, "Altseason Zone – higher altcoin beta")
    let score :=
      match eth_btc_ratio_change_30d with
      | none => bl.1
      | some r =>
        if r > 1/10 then bl.1 + 1/2
        else if r < -(1/10) then bl.1 - 1/2
        else bl.1
    (score, bl.2)

/-- 24h liquidation breakdown (`liq_data` dict with keys
`total`, `longs`, `shorts`). -/
structure LiqData where
  total : ℚ
  longs : ℚ
  shorts : ℚ
deriving DecidableEq

/-- OI-ratio contribution of `score_leverage` (lines 345-354): the
amount added to `score` and the note appended. -/
def leverage_oi_component (oiq : ℚ) : ℚ × List String :=
  if oiq < 3/100 then
    (1, ["Low OI relative to market cap – less crowded leverage."])
  else if 3/100 ≤ oiq ∧ oiq ≤ 7/100 then
    (0, ["Moderate OI – normal leverage environment."])
  else
    (-1, ["High OI – crowded positions, higher liquidation risk."])

/-- Funding contribution of `score_leverage` (lines 356-367). -/
def leverage_funding_component (funding_btc funding_majors : Option ℚ) :
    ℚ × List String :=
  match funding_btc, funding_majors with
  | some fb, some fm =>
    let avg_funding := (fb + fm) / 2
    if avg_funding > 25/100000 then
      (-1, ["High positive funding – many leveraged longs."])
    else if 0 < avg_funding ∧ avg_funding ≤ 25/100000 then
      (0, ["Mild positive funding – bullish positioning but not extreme."])
    else if avg_funding < 0 then
      (1, ["Negative funding – market leaning short, contrarian bullish."])
    else (0, [])
  | _, _ => (0, [])

/-- Liquidation contribution of `score_leverage` (lines 369-379). -/
def leverage_liq_component (liq_data : Option LiqData) : ℚ × List String :=
  match liq_data with
  | some liq =>
    if liq.total > 0 ∧ liq.longs > liq.shorts * 2 then
      (1/2, ["Recent long liquidations – some excess leveraged longs flushed."])
    else if liq.total > 0 ∧ liq.shorts > liq.longs * 2 then
      (-1/2, ["Recent short liquidations – shorts squeezed, risk of pullback."])
    else (0, [])
  | none => (0, [])

/-- Label bracket of the clamped leverage score (lines 384-393). -/
def leverage_bracket_label (score : ℚ) : String :=
  if score ≥ 3/2 then "Clean / low leverage – safer environment."
  else if 1/2 ≤ score ∧ score < 3/2 then "Slightly favorable leverage conditions."
  else if -(1/2) < score ∧ score < 1/2 then "Neutral – normal leverage conditions."
  else if -(3/2) ≤ score ∧ score ≤ -(1/2) then "Elevated leverage – be cautious with alts."
  else "High leverage risk – avoid aggressive alt exposure."

/-- `score_leverage` from dashboard.py lines 332-395.  `score` starts at
`0.0` and each branch adds its contribution, so the final value before
clamping is the sum of the three components; the notes are appended in
the same evaluation order. -/
def score_leverage (oi_usd total_mkt_cap funding_btc funding_majors : Option ℚ)
    (liq_data : Option LiqData) : ℚ × String :=
  if pyFalsy oi_usd || pyFalsy total_mkt_cap then
    (0, "Unknown leverage conditions")
  else
    let oiq := oi_usd.getD 0 / total_mkt_cap.getD 0
    let c1 := leverage_oi_component oiq
    let c2 := leverage_funding_component funding_btc funding_majors
    let c3 := leverage_liq_component liq_data
    let score := clamp (c1.1 + c2.1 + c3.1)
    (score, leverage_bracket_label score ++ " " ++
      String.intercalate " " (c1.2 ++ c2.2 ++ c3.2))

/-- Stablecoin-dominance contribution of `score_flows` (lines 406-415). -/
def flows_stable_component (stable_dom : Option ℚ) : ℚ × List String :=
  match stable_dom with
  | some sd =>
    if 10 ≤ sd ∧ sd ≤ 18 then
      (1, ["Meaningful stablecoin \x27dry powder\x27 available."])
    else if sd < 8 then
      (-1/2, ["Lower stablecoin share – less sidelined capital."])
    else (0, ["Stablecoin share neutral."])
  | none => (0, [])

/-- BTC netflow contribution of `score_flows` (lines 418-424). -/
def flows_btc_component (btc_netflow : Option ℚ) : ℚ × List String :=
  match btc_netflow with
  | some nf =>
    if nf < 0 then (1/2, ["BTC net outflows – accumulation signal."])
    else if nf > 0 then (-1/2, ["BTC net inflows – potential sell pressure."])
    else (0, [])
  | none => (0, [])

/-- ETH netflow contribution of `score_flows` (lines 426-432). -/
def flows_eth_component (eth_netflow : Option ℚ) : ℚ × List String :=
  match eth_netflow with
  | some nf =>
    if nf < 0 then (1/4, ["ETH net outflows – accumulation signal."])
    else if nf > 0 then (-1/4, ["ETH net inflows – potential sell pressure."])
    else (0, [])
  | none => (0, [])

/-- Label bracket of the clamped flows score (lines 437-446). -/
def flows_bracket_label (score : ℚ) : String :=
  if score ≥ 3/2 then "Supportive capital flows – environment favors upside."
  else if 1/2 ≤ score ∧ score < 3/2 then "Mildly supportive flows."
  else if -(1/2) < score ∧ score < 1/2 then "Neutral flows."
  else if -(3/2) ≤ score ∧ score ≤ -(1/2) then "Flows slightly against risk assets."
  else "Adverse flows – higher risk of downside."

/-- `score_flows` from dashboard.py lines 398-448.  As in
`score_leverage`, the accumulated score is the sum of the branch
contributions starting from `0.0`, clamped to `[-3,3]`. -/
def score_flows (stable_dom btc_netflow eth_netflow : Option ℚ) : ℚ × String :=
  let c1 := flows_stable_component stable_dom
  let c2 := flows_btc_component btc_netflow
  let c3 := flows_eth_component eth_netflow
  let score := clamp (c1.1 + c2.1 + c3.1)
  (score, flows_bracket_label score ++ " " ++
    String.intercalate " " (c1.2 ++ c2.2 ++ c3.2))

/-- Combiner weight for the cycle pillar (source literal `0.35`). -/
def w_cycle : ℚ := 35/100

/-- Combiner weight for the rotation pillar (source literal `0.20`). -/
def w_rotation : ℚ := 20/100

/-- Combiner weight for the leverage pillar (source literal `0.20`). -/
def w_leverage : ℚ := 20/100

/-- Combiner weight for the sentiment pillar (source literal `0.15`). -/
def w_sentiment : ℚ := 15/100

/-- Combiner weight for the flows pillar (source literal `0.10`). -/
def w_flows : ℚ := 10/100

/-- `combine_scores` from dashboard.py lines 451-475. -/
def combine_scores (cycle_s rotation_s lev_s sent_s flows_s : ℚ) :
    ℚ × String :=
  let total := w_cycle * cycle_s + w_rotation * rotation_s +
    w_leverage * lev_s + w_sentiment * sent_s + w_flows * flows_s
  let label :=
    if total ≥ 2 then "Bullish – accumulate BTC, selective alts."
    else if 1 ≤ total ∧ total < 2 then "Constructive – BTC-led with room for majors."
    else if -(1/2) < total ∧ total < 1 then "Mixed – favor BTC, reduce alts."
    else if -(3/2) ≤ total ∧ total ≤ -(1/2) then "Defensive – reduce alts, increase stables."
    else "High risk – avoid alts, keep BTC + stables."
  (total, label)

/-- The allocation dict `{BTC, ETH / majors, Altcoins, Stablecoins}`. -/
structure Alloc where
  btc : ℕ
  eth_majors : ℕ
  altcoins : ℕ
  stablecoins : ℕ
deriving DecidableEq

/-- Result dict of `build_investor_playbook`. -/
structure Playbook where
  total_score : ℚ
  total_label : String
  allocation : Alloc
  headline : String
  details : List String
deriving DecidableEq

/-- `build_investor_playbook` from dashboard.py lines 482-573.  The
default allocation and headline set at lines 499-505 are unconditionally
overwritten by the exhaustive `if/elif/else` chain at lines 526-565, so
only the chain appears here.  `if btc_dominance and ...` is Python
truthiness, i.e. `pyFalsy`. -/
def build_investor_playbook (cycle_score : ℚ) (_cycle_label : String)
    (rotation_score : ℚ) (_rotation_label : String)
    (leverage_score : ℚ) (leverage_label : String)
    (sentiment_score : ℚ) (sentiment_label : String)
    (flows_score : ℚ) (flows_label : String)
    (btc_dominance : Option ℚ) : Playbook :=
  let tl := combine_scores cycle_score rotation_score leverage_score
    sentiment_score flows_score
  let details : List String :=
    (if cycle_score ≥ 2 then
      ["Cycle suggests early/mid-bull positioning – upside still available."]
    else if cycle_score ≤ -1 then
      ["Cycle suggests late-stage or euphoric conditions – downside risk increases."]
    else []) ++
    (if pyFalsy btc_dominance = false ∧ btc_dominance.getD 0 ≥ 55 then
      ["BTC dominance is high and/or rising – market is BTC-led."]
    else if pyFalsy btc_dominance = false ∧ btc_dominance.getD 0 ≤ 45 then
      ["BTC dominance is low – altcoins can move faster but are riskier."]
    else []) ++
    ["Leverage conditions: " ++ leverage_label,
     "Sentiment: " ++ sentiment_label,
     "Flows: " ++ flows_label]
  let ah : Alloc × String :=
    if tl.1 ≥ 2 then
      (⟨50, 25, 15, 10⟩,
       "Bullish setup – focus on BTC, with selective exposure to strong majors and altcoins.")
    else if 1 ≤ tl.1 ∧ tl.1 < 2 then
      (⟨55, 25, 10, 10⟩,
       "Constructive market – prioritize BTC and quality majors, keep altcoins sized modestly.")
    else if -(1/2) < tl.1 ∧ tl.1 < 1 then
      (⟨60, 20, 5, 15⟩,
       "Mixed signals – lean into BTC, reduce altcoin exposure, keep some dry powder.")
    else if -(3/2) ≤ tl.1 ∧ tl.1 ≤ -(1/2) then
      (⟨50, 15, 0, 35⟩,
       "Defensive stance – avoid new altcoin risk, increase stablecoins and keep core BTC.")
    else
      (⟨40, 10, 0, 50⟩,
       "High-risk environment – avoid altcoins, focus on capital preservation.")
  { total_score := tl.1, total_label := tl.2, allocation := ah.1,
    headline := ah.2, details := details }

/-- One batch of input readings for a dashboard render, as parsed and
passed to the scoring section of `main` (lines 977-1009).  The current
date enters only as `days_since_halving`. -/
structure Batch where
  days_since_halving : ℤ
  btc_price : Option ℚ
  btc_ath : Option ℚ
  btc_dom : Option ℚ
  eth_btc_change_30d : Option ℚ
  fng_value : Option ℤ
  oi_usd : Option ℚ
  total_mkt_cap : Option ℚ
  funding_btc : Option ℚ
  funding_majors : Option ℚ
  liq : Option LiqData
  stable_dom : Option ℚ
  btc_netflow : Option ℚ
  eth_netflow : Option ℚ

/-- Everything the scoring pipeline produces for one render. -/
structure PipelineOutput where
  cycle : ℚ × String
  sentiment : ℚ × String
  rotation : ℚ × String
  leverage : ℚ × String
  flows : ℚ × String
  playbook : Playbook
deriving DecidableEq

/-- The full scoring pipeline of `main` (lines 977-1009): the five pillar
scorers followed by `build_investor_playbook`. -/
def runPipeline (b : Batch) : PipelineOutput :=
  let cyc := score_cycle b.days_since_halving b.btc_price b.btc_ath
  let sent := score_sentiment b.fng_value
  let rot := score_rotation b.btc_dom b.eth_btc_change_30d
  let lev := score_leverage b.oi_usd b.total_mkt_cap b.funding_btc
    b.funding_majors b.liq
  let flo := score_flows b.stable_dom b.btc_netflow b.eth_netflow
  let pb := build_investor_playbook cyc.1 cyc.2 rot.1 rot.2 lev.1 lev.2
    sent.1 sent.2 flo.1 flo.2 b.btc_dom
  ⟨cyc, sent, rot, lev, flo, pb⟩

/-!  ## Auxiliary definitions for the claims  -/

/-- Asset-class percentages of an allocation, summed. -/
def allocSum (a : Alloc) : ℕ := a.btc + a.eth_majors + a.altcoins + a.stablecoins

/-- The five total-score brackets of `combine_scores` (and of the
allocation chain in `build_investor_playbook`), as a total function:
bracket 0 is `>= 2.0`, 1 is `[1, 2)`, 2 is `(-0.5, 1)`, 3 is
`[-1.5, -0.5]`, 4 is `< -1.5`. -/
def totalBracket (q : ℚ) : Fin 5 :=
  if q ≥ 2 then 0
  else if 1 ≤ q ∧ q < 2 then 1
  else if -(1/2) < q ∧ q < 1 then 2
  else if -(3/2) ≤ q ∧ q ≤ -(1/2) then 3
  else 4

/-- The Combiner label attached to each total-score bracket. -/
def total_bracket_labels : Fin 5 → String
  | 0 => "Bullish – accumulate BTC, selective alts."
  | 1 => "Constructive – BTC-led with room for majors."
  | 2 => "Mixed – favor BTC, reduce alts."
  | 3 => "Defensive – reduce alts, increase stables."
  | 4 => "High risk – avoid alts, keep BTC + stables."

/-- The five predefined allocations of `build_investor_playbook`
(lines 526-565), one per total-score bracket. -/
def allocation_table : Fin 5 → Alloc
  | 0 => ⟨50, 25, 15, 10⟩
  | 1 => ⟨55, 25, 10, 10⟩
  | 2 => ⟨60, 20, 5, 15⟩
  | 3 => ⟨50, 15, 0, 35⟩
  | 4 => ⟨40, 10, 0, 50⟩

/-- Sentiment bracket table as written in spec section 4.2, for
comparison with the source scorer. -/
def sentiment_spec_brackets (v : ℤ) : ℚ × String :=
  if v ≤ 25 then (2, "Extreme Fear (Contrarian Bullish)")
  else if v ≤ 50 then (1, "Fear / Neutral")
  else if v ≤ 75 then (-1, "Greed")
  else (-2, "Extreme Greed (Risky)")

/-- A raw value as delivered by an external feed before any numeric
conversion: either already a number or a string. -/
inductive RawValue where
  | num (n : ℤ)
  | str (s : String)
deriving DecidableEq

/-- The ASCII characters Python `int` skips around a numeric string:
tab through carriage return (9-13), the separator control characters
(28-31) and the space (32). -/
def pyIntWs (c : Char) : Bool :=
  (9 ≤ c.toNat && c.toNat ≤ 13) || (28 ≤ c.toNat && c.toNat ≤ 31) ||
    c.toNat = 32

/-- Strip the surrounding whitespace Python `int` ignores. -/
def pyStrip (l : List Char) : List Char :=
  ((l.dropWhile pyIntWs).reverse.dropWhile pyIntWs).reverse

/-- Continuation of the digit run after its first digit: further digits,
grouped by single underscores that must sit between two digits, as
Python `int` accepts them. -/
def parseDigits : List Char → ℕ → Option ℕ
  | [], acc => some acc
  | '_' :: c :: cs, acc =>
    if c.isDigit then parseDigits cs (10 * acc + (c.toNat - 48)) else none
  | c :: cs, acc =>
    if c.isDigit then parseDigits cs (10 * acc + (c.toNat - 48)) else none

/-- A digit run must start with a digit (no leading or trailing
underscore, no empty run). -/
def parseIntBody (l : List Char) : Option ℕ :=
  match l with
  | [] => none
  | c :: cs => if c.isDigit then parseDigits cs (c.toNat - 48) else none

/-- The strings Python `int` accepts, as an optional value: surrounding
whitespace, an optional ASCII sign, then at least one digit with single
underscores allowed between digits.  This agrees with `int` on every
string of ASCII characters; strings with non-ASCII characters (such as
Unicode digits or Unicode-only whitespace) are outside the model and
rejected here. -/
def strToInt (s : String) : Option ℤ :=
  match pyStrip s.data with
  | [] => none
  | c :: cs =>
    if c = '-' then (parseIntBody cs).map (fun n => -(Int.ofNat n))
    else if c = '+' then (parseIntBody cs).map Int.ofNat
    else (parseIntBody (c :: cs)).map Int.ofNat

/-- Python `int(x)`: the identity on integers; on strings it converts
exactly the numeric strings accepted by `strToInt` and raises
`ValueError` on the rest.  Raising is modelled as `Except.error`. -/
def pyInt (r : RawValue) : Except String ℤ :=
  match r with
  | .num n => .ok n
  | .str s =>
    match strToInt s with
    | some n => .ok n
    | none => .error "ValueError"

/-- `score_sentiment` as executed on the raw optional value taken from
the Fear & Greed API response: the `int` conversion happens inside the
scorer (line 289, `v = int(fng_value)`), after the `None` guard, so the
conversion of a malformed value raises inside the scorer itself; no
earlier normalisation step validates it (main, lines 964-969). -/
def score_sentiment_raw (fng_value : Option RawValue) :
    Except String (ℚ × String) :=
  match fng_value with
  | none => .ok (0, "Unknown")
  | some r =>
    match pyInt r with
    | .error e => .error e
    | .ok v => .ok (score_sentiment (some v))

/-!  ## Helper lemmas  -/

lemma clamp_mem (s : ℚ) : -3 ≤ clamp s ∧ clamp s ≤ 3 := by
  unfold clamp pyMax pyMin
  split_ifs <;> constructor <;> linarith

lemma bracket4_of_not (q : ℚ) (h1 : ¬ q ≥ 2) (h2 : ¬(1 ≤ q ∧ q < 2))
    (h3 : ¬(-(1/2) < q ∧ q < 1)) (h4 : ¬(-(3/2) ≤ q ∧ q ≤ -(1/2))) :
    q < -(3/2) := by
  by_contra hq
  push_neg at h1 h2 h3 h4 hq
  have a := h4 hq
  have b := h3 a
  have c := h2 b
  linarith

lemma totalBracket_cases (q : ℚ) :
    (totalBracket q = 0 ↔ 2 ≤ q) ∧
    (totalBracket q = 1 ↔ 1 ≤ q ∧ q < 2) ∧
    (totalBracket q = 2 ↔ -(1/2) < q ∧ q < 1) ∧
    (totalBracket q = 3 ↔ -(3/2) ≤ q ∧ q ≤ -(1/2)) ∧
    (totalBracket q = 4 ↔ q < -(3/2)) := by
  unfold totalBracket
  split_ifs with h1 h2 h3 h4
  · exact ⟨⟨fun _ => h1, fun _ => rfl⟩,
      ⟨fun hf => absurd hf (by decide), fun hb => absurd h1 (by push_neg; linarith [hb.2])⟩,
      ⟨fun hf => absurd hf (by decide), fun hb => absurd h1 (by push_neg; linarith [hb.2])⟩,
      ⟨fun hf => absurd hf (by decide), fun hb => absurd h1 (by push_neg; linarith [hb.2])⟩,
      ⟨fun hf => absurd hf (by decide), fun hb => absurd h1 (by push_neg; linarith)⟩⟩
  · exact ⟨⟨fun hf => absurd hf (by decide), fun hb => absurd hb h1⟩,
      ⟨fun _ => h2, fun _ => rfl⟩,
      ⟨fun hf => absurd hf (by decide), fun hb => by exfalso; linarith [h2.1, hb.2]⟩,
      ⟨fun hf => absurd hf (by decide), fun hb => by exfalso; linarith [h2.1, hb.2]⟩,
      ⟨fun hf => absurd hf (by decide), fun hb => by exfalso; linarith [h2.1]⟩⟩
  · exact ⟨⟨fun hf => absurd hf (by decide), fun hb => absurd hb h1⟩,
      ⟨fun hf => absurd hf (by decide), fun hb => absurd hb h2⟩,
      ⟨fun _ => h3, fun _ => rfl⟩,
      ⟨fun hf => absurd hf (by decide), fun hb => by exfalso; linarith [h3.1, hb.2]⟩,
      ⟨fun hf => absurd hf (by decide), fun hb => by exfalso; linarith [h3.1]⟩⟩
  · exact ⟨⟨fun hf => absurd hf (by decide), fun hb => absurd hb h1⟩,
      ⟨fun hf => absurd hf (by decide), fun hb => absurd hb h2⟩,
      ⟨fun hf => absurd hf (by decide), fun hb => absurd hb h3⟩,
      ⟨fun _ => h4, fun _ => rfl⟩,
      ⟨fun hf => absurd hf (by decide), fun hb => by exfalso; linarith [h4.1]⟩⟩
  · exact ⟨⟨fun hf => absurd hf (by decide), fun hb => absurd hb h1⟩,
      ⟨fun hf => absurd hf (by decide), fun hb => absurd hb h2⟩,
      ⟨fun hf => absurd hf (by decide), fun hb => absurd hb h3⟩,
      ⟨fun hf => absurd hf (by decide), fun hb => absurd hb h4⟩,
      ⟨fun _ => bracket4_of_not q h1 h2 h3 h4, fun _ => rfl⟩⟩

lemma mem_of_mem_dropWhile {p : Char → Bool} {l : List Char} {c : Char}
    (h : c ∈ l.dropWhile p) : c ∈ l := by
  induction l with
  | nil => simp at h
  | cons a t ih =>
    by_cases hpa : p a
    · simp only [List.dropWhile_cons, hpa, if_true] at h
      exact List.mem_cons_of_mem _ (ih h)
    · simpa only [List.dropWhile_cons, hpa, if_false] using h

lemma mem_of_mem_pyStrip {l : List Char} {c : Char} (h : c ∈ pyStrip l) :
    c ∈ l := by
  unfold pyStrip at h
  rw [List.mem_reverse] at h
  have h1 := mem_of_mem_dropWhile h
  rw [List.mem_reverse] at h1
  exact mem_of_mem_dropWhile h1

lemma parseIntBody_none {cs : List Char}
    (h : ∀ c ∈ cs, c.isDigit = false) : parseIntBody cs = none := by
  cases cs with
  | nil => rfl
  | cons c t => simp [parseIntBody, h c (List.mem_cons_self c t)]

lemma strToInt_none_of_no_digit (s : String)
    (h : ∀ c ∈ s.data, c.isDigit = false) : strToInt s = none := by
  have hs : ∀ c ∈ pyStrip s.data, c.isDigit = false :=
    fun c hc => h c (mem_of_mem_pyStrip hc)
  unfold strToInt
  rcases hl : pyStrip s.data with _ | ⟨c, cs⟩
  · rfl
  · rw [hl] at hs
    have hcs : ∀ x ∈ cs, x.isDigit = false :=
      fun x hx => hs x (List.mem_cons_of_mem _ hx)
    have hfull : ∀ x ∈ c :: cs, x.isDigit = false := hs
    simp only []
    split_ifs <;>
      simp [parseIntBody_none hcs, parseIntBody_none hfull]

lemma flows_none_eval :
    score_flows none none none = ((0 : ℚ), "Neutral flows. ") := by
  norm_num [score_flows, flows_stable_component, flows_btc_component,
    flows_eth_component, clamp, pyMax, pyMin, flows_bracket_label,
    String.intercalate, List.intercalate]
  rfl

/-!  ## Claims  -/

/-- C1 (counterexample): the Flows scorer with stablecoin dominance,
BTC netflow and ETH netflow all absent does not return the label
`Unknown` — it returns the neutral-bracket label `Neutral flows. `. -/
theorem claim1_flows_not_unknown :
    score_flows none none none ≠ ((0 : ℚ), "Unknown") := by
  intro h
  rw [flows_none_eval] at h
  exact absurd (congrArg Prod.snd h) (by decide)

/-- C1 (amended): missing required inputs make the Cycle, Sentiment and
Rotation scorers return `(0, "Unknown")` and the Leverage scorer return
`(0, "Unknown leverage conditions")`, with no exception; the Flows
scorer with all three inputs absent returns score `0`, but with the
neutral label `Neutral flows. ` rather than an Unknown label. -/
theorem claim1_missing_inputs (d : ℤ) (p a ethr oi mc fb fm : Option ℚ)
    (liq : Option LiqData) :
    score_cycle d none a = (0, "Unknown") ∧
    score_cycle d p none = (0, "Unknown") ∧
    score_sentiment none = (0, "Unknown") ∧
    score_rotation none ethr = (0, "Unknown") ∧
    score_leverage none mc fb fm liq = (0, "Unknown leverage conditions") ∧
    score_leverage oi none fb fm liq = (0, "Unknown leverage conditions") ∧
    score_flows none none none = ((0 : ℚ), "Neutral flows. ") := by
  refine ⟨?_, ?_, rfl, rfl, ?_, ?_, flows_none_eval⟩ <;>
    simp [score_cycle, score_leverage, pyFalsy]

/-- C2: the Combiner returns
`total = 0.35*cycle + 0.20*rotation + 0.20*leverage + 0.15*sentiment +
0.10*flows`, its label is the label of the bracket the total falls in,
and the five brackets (`>= 2`, `[1,2)`, `(-0.5,1)`, `[-1.5,-0.5]`,
`< -1.5`) are the preimages of the five values of the total function
`totalBracket`, hence non-overlapping and exhaustive over the
rationals. -/
theorem claim2_combiner :
    (∀ c r l s f : ℚ,
      combine_scores c r l s f =
        (35/100 * c + 20/100 * r + 20/100 * l + 15/100 * s + 10/100 * f,
         total_bracket_labels (totalBracket
           (35/100 * c + 20/100 * r + 20/100 * l + 15/100 * s + 10/100 * f)))) ∧
    (∀ q : ℚ,
      (totalBracket q = 0 ↔ 2 ≤ q) ∧
      (totalBracket q = 1 ↔ 1 ≤ q ∧ q < 2) ∧
      (totalBracket q = 2 ↔ -(1/2) < q ∧ q < 1) ∧
      (totalBracket q = 3 ↔ -(3/2) ≤ q ∧ q ≤ -(1/2)) ∧
      (totalBracket q = 4 ↔ q < -(3/2))) := by
  refine ⟨?_, totalBracket_cases⟩
  intro c r l s f
  simp only [combine_scores, totalBracket, total_bracket_labels,
    w_cycle, w_rotation, w_leverage, w_sentiment, w_flows]
  split_ifs <;> rfl

/-- C3: the playbook's allocation is always the entry of the five-row
predefined table selected by the total-score bracket of the Combiner,
and every row of that table sums to exactly 100. -/
theorem claim3_allocation :
    (∀ i : Fin 5, allocSum (allocation_table i) = 100) ∧
    (∀ (cs : ℚ) (cl : String) (rs : ℚ) (rl : String) (ls : ℚ) (ll : String)
       (ss : ℚ) (sl : String) (fs : ℚ) (fl : String) (dom : Option ℚ),
      (build_investor_playbook cs cl rs rl ls ll ss sl fs fl dom).allocation =
        allocation_table (totalBracket
          (build_investor_playbook cs cl rs rl ls ll ss sl fs fl dom).total_score)) := by
  constructor
  · decide
  · intro cs cl rs rl ls ll ss sl fs fl dom
    simp only [build_investor_playbook, combine_scores, totalBracket,
      allocation_table, w_cycle, w_rotation, w_leverage, w_sentiment, w_flows]
    split_ifs <;> rfl

/-- C4 (counterexample): with price 50000 and ATH 100000, on a date
within the halving bonus window (0 days after the halving) the Cycle
scorer returns 3.5, not 3, so the claimed result does not hold for
every current date. -/
theorem claim4_cycle_halving_bonus :
    score_cycle 0 (some 50000) (some 100000) ≠
      ((3 : ℚ), "Deep Value / Early Cycle") := by
  have h : score_cycle 0 (some 50000) (some 100000) =
      ((7/2 : ℚ), "Deep Value / Early Cycle") := by
    norm_num [score_cycle, pyFalsy]
  rw [h]
  intro hc
  have := congrArg Prod.fst hc
  norm_num at this

/-- C4 (amended): with price 50000 and ATH 100000 the relative distance
from the ATH is exactly -0.5, which resolves to the inclusive bracket
`<= -0.5`, so for every current date the base score is 3 and the label
is `Deep Value / Early Cycle`; the returned score is 3.5 when the date
precedes the halving or falls within 270 days after it, and exactly 3
otherwise. -/
theorem claim4_cycle_boundary (d : ℤ) :
    score_cycle d (some 50000) (some 100000) =
      ((if d < 0 ∨ (0 ≤ d ∧ d ≤ 270) then 7/2 else 3 : ℚ),
       "Deep Value / Early Cycle") := by
  unfold score_cycle
  norm_num [pyFalsy]
  split_ifs <;> first | rfl | omega

/-- C5: the Sentiment scorer agrees with the spec's bracket table on
every present index value (so in particular on all of `[0,100]`), the
lower boundaries being inclusive: it returns 2 at value 25 and 1 at
value 26. -/
theorem claim5_sentiment_brackets :
    (∀ v : ℤ, score_sentiment (some v) = sentiment_spec_brackets v) ∧
    score_sentiment (some 25) = (2, "Extreme Fear (Contrarian Bullish)") ∧
    score_sentiment (some 26) = (1, "Fear / Neutral") := by
  have h : ∀ v : ℤ, score_sentiment (some v) = sentiment_spec_brackets v := by
    intro v
    simp only [score_sentiment, sentiment_spec_brackets]
    split_ifs <;> first | rfl | omega
  exact ⟨h, by rw [h]; norm_num [sentiment_spec_brackets],
    by rw [h]; norm_num [sentiment_spec_brackets]⟩

/-- C6: the full scoring pipeline is a pure function of the input batch
(the current date entering only through `days_since_halving`): running
it twice on the same batch yields identical pillar scores and labels,
total score and allocation plan. -/
theorem claim6_deterministic (b : Batch) : runPipeline b = runPipeline b := rfl

/-- C7: the five Combiner weights are fixed constants summing to
exactly 1, and the Combiner's total is exactly their weighted
combination of the five pillar scores. -/
theorem claim7_weights_sum_to_one :
    w_cycle + w_rotation + w_leverage + w_sentiment + w_flows = 1 ∧
    ∀ c r l s f : ℚ, (combine_scores c r l s f).1 =
      w_cycle * c + w_rotation * r + w_leverage * l + w_sentiment * s +
        w_flows * f := by
  constructor
  · norm_num [w_cycle, w_rotation, w_leverage, w_sentiment, w_flows]
  · intro c r l s f; rfl

/-- C8: whatever the OI, market cap, funding and liquidation inputs,
the Leverage scorer's value lies in `[-3, 3]`. -/
theorem claim8_leverage_bounded (oi mc fb fm : Option ℚ)
    (liq : Option LiqData) :
    -3 ≤ (score_leverage oi mc fb fm liq).1 ∧
      (score_leverage oi mc fb fm liq).1 ≤ 3 := by
  unfold score_leverage
  split_ifs
  · norm_num
  · exact clamp_mem _

/-- C9 (counterexample): a malformed (non-numeric) Fear & Greed value is
not stopped before the Sentiment scorer: the scorer itself performs the
`int` conversion and raises `ValueError` internally. -/
theorem claim9_sentiment_error_inside :
    score_sentiment_raw (some (RawValue.str "not a number")) =
      Except.error "ValueError" := by
  have h : strToInt "not a number" = none := by decide
  simp only [score_sentiment_raw, pyInt, h]

/-- C9 (amended): no boundary validation precedes the pure scorers; for
every malformed string value — here any string of ASCII characters
containing no decimal digit, a class Python `int` always rejects — the
Sentiment scorer itself raises `ValueError` internally (modelled as
`Except.error`) when invoked on it. -/
theorem claim9_sentiment_raises (s : String)
    (_hascii : ∀ c ∈ s.data, c.toNat < 128)
    (h : ∀ c ∈ s.data, c.isDigit = false) :
    score_sentiment_raw (some (RawValue.str s)) =
      Except.error "ValueError" := by
  simp only [score_sentiment_raw, pyInt, strToInt_none_of_no_digit s h]

/-- C9 (witness): the amended statement at the concrete malformed
value `"N/A"`. -/
theorem claim9_sentiment_raises_witness :
    score_sentiment_raw (some (RawValue.str "N/A")) =
      Except.error "ValueError" :=
  claim9_sentiment_raises "N/A" (by decide) (by decide)

/-- C10: both divisions of the scoring core are behind Python falsiness
guards, so a reading equal to 0 is treated exactly like an absent
reading: the Cycle scorer with price 0 or ATH 0 and the Leverage scorer
with OI 0 or market cap 0 return their Unknown results, identical to
the absent-input results, and never divide by the zero value. -/
theorem claim10_zero_like_absent (d : ℤ) (p a oi mc fb fm : Option ℚ)
    (liq : Option LiqData) :
    score_cycle d (some 0) a = (0, "Unknown") ∧
    score_cycle d p (some 0) = (0, "Unknown") ∧
    score_cycle d (some 0) a = score_cycle d none a ∧
    score_cycle d p (some 0) = score_cycle d p none ∧
    score_leverage (some 0) mc fb fm liq = (0, "Unknown leverage conditions") ∧
    score_leverage oi (some 0) fb fm liq = (0, "Unknown leverage conditions") ∧
    score_leverage (some 0) mc fb fm liq = score_leverage none mc fb fm liq ∧
    score_leverage oi (some 0) fb fm liq = score_leverage oi none fb fm liq := by
  refine ⟨?_, ?_, ?_, ?_, ?_, ?_, ?_, ?_⟩ <;>
    simp [score_cycle, score_leverage, pyFalsy]

end Dashboard
